import Mathlib

/-!
A verification development for the iba2opcua repository.

The Python sources `pyIbaTools/pyIbaTools.py` (file discovery, metadata
validation, channel extraction, multi-file stacking) and `server.py`
(per-sample-rate playback scheduler) are shallowly embedded below.

Embedding conventions:
* Python floats are modelled as exact rationals; `int(q)` (truncation
  toward zero) is `pyInt`.
* Python exceptions become `Except IbaError`; a bare `except:` becomes a
  total `match` over the `Except`.
* The opaque `ibaFilesLite` reader is modelled by explicit environments
  (`IbaFileEnv`, `FileCheckEnv`) and oracle functions standing for its
  query results; the pandas DataFrame is modelled as a named list of
  columns (`DataFrame`).
* The wall clock of the scheduler thread is modelled by an explicit
  rational "now": reading `time.time()` returns it, doing the per-tick
  work advances it by the tick's `work` duration, and `time.sleep(x)`
  advances it by `x` plus a non-negative `overshoot` (OS sleep slack).
-/

namespace IbaTools

/-- The exception taxonomy of `pyIbaTools.py` (plus `RuntimeError` and
`ValueError` of the underlying reader / slicing, folded into
`runtimeError` and `valueError`). -/
inductive IbaError
  | channelNotFound
  | fileDamaged
  | fileNotComplete
  | dataStacking
  | fileCurrentlyWritten
  | fileNotFound
  | runtimeError
  | valueError
deriving DecidableEq, Repr

instance {ε α : Type} [DecidableEq ε] [DecidableEq α] :
    DecidableEq (Except ε α) := fun a b =>
  match a, b with
  | .ok x, .ok y => if h : x = y then .isTrue (by simp [h]) else .isFalse (by simp [h])
  | .error e, .error f => if h : e = f then .isTrue (by simp [h]) else .isFalse (by simp [h])
  | .ok _, .error _ => .isFalse (by simp)
  | .error _, .ok _ => .isFalse (by simp)

/-- Python `int(q)`: truncation toward zero. -/
def pyInt (q : ℚ) : ℤ := if q < 0 then -⌊-q⌋ else ⌊q⌋

/-- Helper for Python's extended slice `l[::k]` with positive step `k`:
take an element when the countdown hits `0`, then restart the countdown
at `k - 1`. -/
def everyNthAux {α : Type} : List α → ℕ → ℕ → List α
  | [], _, _ => []
  | a :: as, k, 0 => a :: everyNthAux as k (k - 1)
  | _ :: as, k, Nat.succ c => everyNthAux as k c

/-- Every `k`-th element of `l`, starting at index `0`
(Python `l[::k]` for `k > 0`). -/
def everyNth {α : Type} (l : List α) (k : ℕ) : List α := everyNthAux l k 0

/-- Python slicing `l[::step]` (`processed_data[::int(tbase / clk)]` in the
source): step `0` raises `ValueError`, a positive step takes every
`step`-th element, a negative step walks the reversed list. -/
def pySliceStep {α : Type} (l : List α) (step : ℤ) : Except IbaError (List α) :=
  if step = 0 then .error .valueError
  else if 0 < step then .ok (everyNth l step.toNat)
  else .ok (everyNth l.reverse (-step).toNat)

/-- The result of `chan_reader.QueryData()`: the channel's native clock
period (`Timebase`) and its raw samples. -/
structure NumericData where
  timebase : ℚ
  data : List ℚ
deriving DecidableEq, Repr

/-- `np.repeat(l, n)`: each element replicated `n` times. -/
def npRepeatElems (l : List ℚ) (n : ℕ) : List ℚ := l.flatMap (List.replicate n)

/-- Embedding of `__read_numeric_channel__(chan_reader, tbase, clk)`
(pyIbaTools.py lines 594-629).  `channel_data = None` raises
`IbaFileDamagedError`; a native clock differing from the file clock
triggers replication by factor `chn_clk / clk`; a non-zero requested
timebase decimates by Python slice step `int(tbase / clk)`. -/
def readNumericChannel (channel_data : Option NumericData) (tbase clk : ℚ) :
    Except IbaError (List ℚ) :=
  match channel_data with
  | none => .error .fileDamaged
  | some cd =>
    let chn_clk := cd.timebase
    let processed := cd.data
    let processed :=
      if chn_clk ≠ clk then npRepeatElems processed (pyInt (chn_clk / clk)).toNat
      else processed
    if tbase ≠ 0 then pySliceStep processed (pyInt (tbase / clk))
    else .ok processed

/-- `processed_data[idx_list] = cur_str` for `idx_list in range(a, b)`:
overwrite the entries of `l` whose index lies in `[a, b)`. -/
def fillRange (l : List String) (a b : ℤ) (s : String) : List String :=
  l.mapIdx (fun i v => if a ≤ (i : ℤ) ∧ (i : ℤ) < b then s else v)

/-- The fill loop of `__read_text_channel__` (pyIbaTools.py lines 651-662),
embedded exactly as written: for the event at position `idx` the start
index is `int(text_data[0] / clk)` and the end index is
`int(channel_data[idx][0] / clk)` whenever `idx < len(channel_data)`
(else `frames`). -/
def textFillLoop (channel_data : List (ℚ × String)) (clk : ℚ) (frames : ℕ) :
    List String :=
  channel_data.enum.foldl
    (fun acc p =>
      let idx := p.1
      let text_data := p.2
      let start_idx := pyInt (text_data.1 / clk)
      let end_idx : ℤ :=
        if idx < channel_data.length then
          pyInt ((channel_data.getD idx (0, "")).1 / clk)
        else (frames : ℤ)
      fillRange acc start_idx end_idx text_data.2)
    (List.replicate frames "")

/-- Embedding of `__read_text_channel__(chan_reader, tbase, clk, frames)`
(pyIbaTools.py lines 632-668): `None` data raises `IbaFileDamagedError`,
otherwise the sparse transition events are expanded over a list of
`frames` empty strings and a non-zero timebase decimates by slice step
`int(tbase / clk)`. -/
def readTextChannel (channel_data : Option (List (ℚ × String))) (tbase clk : ℚ)
    (frames : ℕ) : Except IbaError (List String) :=
  match channel_data with
  | none => .error .fileDamaged
  | some cd =>
    let processed := textFillLoop cd clk frames
    if tbase ≠ 0 then pySliceStep processed (pyInt (tbase / clk))
    else .ok processed

/-- A table cell: a value or the null/absent marker (`None` / `NaN`). -/
abbrev Cell := Option ℤ

/-- A pandas `DataFrame` reduced to what the stacking code observes:
a row count and an ordered list of named columns. -/
structure DataFrame where
  nrows : ℕ
  cols : List (String × List Cell)
deriving DecidableEq, Repr

/-- `df.columns`. -/
def colNames (df : DataFrame) : List String := df.cols.map Prod.fst

/-- `df[c]` as a partial lookup. -/
def getCol (df : DataFrame) (c : String) : Option (List Cell) :=
  List.lookup c df.cols

/-- The per-frame fill step of `readIbaFiles` (pyIbaTools.py lines 344-352):
each column of `all_columns` missing from `df` is added as a full-length
null column (`df[column] = None`). -/
def fillMissing (df : DataFrame) (allCols : List String) : DataFrame :=
  { nrows := df.nrows
    cols := df.cols ++
      (allCols.filter (fun c => ¬ c ∈ colNames df)).map
        (fun c => (c, List.replicate df.nrows (none : Cell))) }

/-- `pd.concat(dfs, ignore_index=True)` over frames that (after
`fillMissing`) all carry the columns `allCols`: rows are stacked in list
order, columns aligned by name. -/
def concatAligned (allCols : List String) (dfs : List DataFrame) : DataFrame :=
  { nrows := (dfs.map DataFrame.nrows).sum
    cols := allCols.map (fun c =>
      (c, dfs.flatMap (fun df => (getCol df c).getD (List.replicate df.nrows none)))) }

/-- The stacking tail of `readIbaFiles` (pyIbaTools.py lines 340-355):
collect the union of all column names, null-fill each frame, concatenate.
(Python builds the union through `set`, whose iteration order is
unspecified; `dedup` fixes one order, and every statement proved below is
insensitive to it.) -/
def stackDataFrames (dfs : List DataFrame) : DataFrame :=
  let allCols := (dfs.flatMap colNames).dedup
  concatAligned allCols (dfs.map (fillMissing · allCols))

/-- The per-file loop of `readIbaFiles` (pyIbaTools.py lines 330-338),
embedded exactly as written: there is no `try`/`except` around
`readIbaFile`, so the first per-file error propagates. -/
def readIbaFilesCollect {α : Type} (f : α → Except IbaError DataFrame) :
    List α → Except IbaError (List DataFrame)
  | [] => .ok []
  | x :: xs =>
    match f x with
    | .error e => .error e
    | .ok d =>
      match readIbaFilesCollect f xs with
      | .error e => .error e
      | .ok ds => .ok (d :: ds)

/-- `readIbaFiles(iba_file_list, ...)` with the per-file read abstracted
as the oracle `f` (it is `readIbaFile(file, ..., ignore=True)` in the
source): read every file, then stack. -/
def readIbaFilesModel {α : Type} (f : α → Except IbaError DataFrame)
    (files : List α) : Except IbaError DataFrame :=
  match readIbaFilesCollect f files with
  | .error e => .error e
  | .ok dfs => .ok (stackDataFrames dfs)

/-- A concrete per-file read used to evaluate `readIbaFilesModel` on
closed inputs: `true` stands for a readable file, `false` for a damaged
one. -/
def demoPerFileRead (b : Bool) : Except IbaError DataFrame :=
  if b then .ok ⟨1, [("x", [some 0])]⟩ else .error .fileDamaged

/-- `sortIbaFiles(iba_files)` (pyIbaTools.py lines 128-146) with
`get_start_time` abstracted as the oracle `getStart` (`none` models the
bare `except:` branch that logs and skips the file): keep the files whose
start time could be read, in insertion order, then sort them stably by
start time (`sorted` of the dict keys by value). -/
def sortIbaFilesModel {α : Type} (getStart : α → Option ℤ) (files : List α) :
    List α :=
  ((files.filterMap (fun x => (getStart x).map (fun t => (x, t)))).mergeSort
      (fun p q => p.2 ≤ q.2)).map Prod.fst

/-- One entry of the `channels` argument of `readIbaFile`: either a single
identity or a nested list of alternative identities (pyIbaTools.py line
256: `isinstance(chn, list)`). -/
inductive ChanSpec
  | single (s : String)
  | group (alts : List String)
deriving DecidableEq, Repr

/-- `df[name] = v` on the column map of a DataFrame: overwrite an existing
column of that name, else append it. -/
def dfAssign (df : List (String × ℤ)) (name : String) (v : ℤ) :
    List (String × ℤ) :=
  if name ∈ df.map Prod.fst then
    df.map (fun p => if p.1 = name then (p.1, v) else p)
  else df ++ [(name, v)]

/-- The inner `for alt_chn in chn` loop of `readIbaFile` (lines 259-273):
try the alternatives in order, stop at the first whose read succeeds
(`ChannelNotFoundError` just moves to the next one). -/
def firstResolved (resolve : String → Option ℤ) : List String → Option ℤ
  | [] => none
  | a :: as =>
    match resolve a with
    | some d => some d
    | none => firstResolved resolve as

/-- The channel loop of `readIbaFile` (pyIbaTools.py lines 254-294),
embedded exactly as written.  `resolve` abstracts `__read_channel__`
(the channel's extracted series, abstracted to a token, or
`ChannelNotFoundError`); `chan_data` threads the Python local variable of
that name, `none` meaning it has never been assigned (so that reading it
raises `NameError`, which the `except Exception` at line 293 turns into
`DataStackingError`).  Note the group branch: when no alternative is
found and `ignore` is set, control falls through to
`df[names[num]] = chan_data` with whatever `chan_data` held before. -/
def readChannelsLoop (resolve : String → Option ℤ) (ignore : Bool) :
    List (ChanSpec × String) → Option ℤ → List (String × ℤ) →
    Except IbaError (List (String × ℤ))
  | [], _, df => .ok df
  | (chn, name) :: rest, chan_data, df =>
    match chn with
    | .group alts =>
      match firstResolved resolve alts with
      | some d => readChannelsLoop resolve ignore rest (some d) (dfAssign df name d)
      | none =>
        if ignore then
          match chan_data with
          | none => .error .dataStacking
          | some d => readChannelsLoop resolve ignore rest (some d) (dfAssign df name d)
        else .error .channelNotFound
    | .single s =>
      match resolve s with
      | some d => readChannelsLoop resolve ignore rest (some d) (dfAssign df name d)
      | none =>
        if ignore then readChannelsLoop resolve ignore rest chan_data df
        else .error .channelNotFound

/-- `readIbaFile`'s channel extraction, starting from an empty DataFrame
and an unassigned `chan_data`. -/
def readIbaFileChannels (resolve : String → Option ℤ) (channels : List ChanSpec)
    (names : List String) (ignore : Bool) : Except IbaError (List (String × ℤ)) :=
  readChannelsLoop resolve ignore (channels.zip names) none []

/-- Python `s.split(d)` for a one-character separator, on the character
list: consecutive separators produce empty tokens and the result is never
empty. -/
def splitList (d : Char) : List Char → List (List Char)
  | [] => [[]]
  | a :: as =>
    let r := splitList d as
    if a = d then [] :: r
    else
      match r with
      | [] => [[a]]
      | g :: gs => (a :: g) :: gs

/-- Python `s.split(d)` for a one-character separator (the repository only
ever splits on the default `','`). -/
def pySplit (s : String) (d : Char) : List String :=
  (splitList d s.toList).map (fun cs => String.mk cs)

/-- Python `s.strip()`: drop whitespace from both ends. -/
def pyStrip (s : String) : String :=
  String.mk (((s.toList.dropWhile Char.isWhitespace).reverse.dropWhile
    Char.isWhitespace).reverse)

/-- The `channels` argument of `__declaration_check__`, as the Python
dynamic typing presents it: `None`, a single string, a dict, or a list of
entries (single identities or alternative groups). -/
inductive ChannelsArg
  | noneArg
  | strArg (s : String)
  | dictArg (kvs : List (String × String))
  | listArg (l : List ChanSpec)
deriving DecidableEq, Repr

/-- The channel-identity normalization of `__declaration_check__`
(pyIbaTools.py lines 689-707), embedded exactly as written:
`None`/`''`/`'*'` resolve to all channels of the file, a plain string is
split on the delimiter and each token stripped, a dict contributes its
keys, and a list has its empty-string entries dropped. -/
def declarationCheckChannels (fileChannels : List String)
    (channels : ChannelsArg) (delimiter : Char) : List ChanSpec :=
  match channels with
  | .noneArg => fileChannels.map ChanSpec.single
  | .strArg s =>
    if s = "" ∨ s = "*" then fileChannels.map ChanSpec.single
    else ((pySplit s delimiter).map pyStrip).map ChanSpec.single
  | .dictArg kvs => (kvs.map Prod.fst).map ChanSpec.single
  | .listArg l => l.filter (fun c => ¬ c = ChanSpec.single "")

/-- An opaque `ibaFilesLite.ChannelReader` instance. -/
structure ChannelReaderHandle where
  id : ℕ
deriving DecidableEq, Repr

/-- The observable behaviour of `ibaFilesLite` on one file: the
`isCurrentPDA` predicate, whether `FileReader.Open` succeeds, whether
`os.path.isfile` holds, and the two channel queries (`none` models the
`RuntimeError` they raise for an unknown channel or unreadable file). -/
structure IbaFileEnv where
  isCurrentPDA : Bool
  openOk : Bool
  isfile : Bool
  queryChannel : String → Option ChannelReaderHandle
  queryChannelByName : String → Option ChannelReaderHandle

/-- The dispatch of `__get_iba_channel_reader__` (pyIbaTools.py lines
549-566) for string identities: `re.match("[0-9]*[.:][0-9]*", s)` succeeds
exactly when the run of leading digits is followed by `'.'` or `':'`. -/
def isIdPattern (s : String) : Bool :=
  match s.toList.dropWhile Char.isDigit with
  | [] => false
  | c :: _ => c = '.' || c = ':'

/-- `__get_iba_channel_reader__(channel_, freader_)`: query by id when the
identity matches the id pattern, else by name; a failed query raises
`RuntimeError`. -/
def getIbaChannelReader (env : IbaFileEnv) (chan : String) :
    Except IbaError ChannelReaderHandle :=
  if isIdPattern chan then
    match env.queryChannel chan with
    | some r => .ok r
    | none => .error .runtimeError
  else
    match env.queryChannelByName chan with
    | some r => .ok r
    | none => .error .runtimeError

/-- The entry checks of the `ibaReader` context manager (pyIbaTools.py
lines 149-175): a file currently written by the ibaPDA raises
`IbaFileIsCurrentlyWrittenError`; a failing `Open` raises
`FileNotFoundError` when the path does not exist, else re-raises the
`RuntimeError`. -/
def ibaReaderOpen (env : IbaFileEnv) : Except IbaError Unit :=
  if env.isCurrentPDA then .error .fileCurrentlyWritten
  else if env.openOk then .ok ()
  else if ¬ env.isfile then .error .fileNotFound
  else .error .runtimeError

/-- The body of `is_channel`'s `try` block: open the file, then obtain the
channel reader. -/
def acquireChannelReader (env : IbaFileEnv) (chan : String) :
    Except IbaError ChannelReaderHandle :=
  match ibaReaderOpen env with
  | .error e => .error e
  | .ok _ => getIbaChannelReader env chan

/-- `is_channel(chan, file)` (pyIbaTools.py lines 438-451): the bare
`except:` maps every failure to `False`; success returns the
`isinstance(chanReader, ibaFilesLite.ChannelReader)` check, which holds
for any handle the reader returns. -/
def is_channel (chan : String) (env : IbaFileEnv) : Bool :=
  match acquireChannelReader env chan with
  | .ok _ => true
  | .error _ => false

/-- The observable behaviour of the metadata queries of `__check_file__`:
`queryMeta` is `some (clk, frames)` when both `QueryInfoByName('clk')`
and `QueryInfoByName('frames')` parse, `none` when that block raises;
`isfile` is `os.path.isfile` at failure time. -/
structure FileCheckEnv where
  queryMeta : Option (ℚ × ℤ)
  isfile : Bool
deriving DecidableEq, Repr

/-- `__check_file__(reader, iba_file)` (pyIbaTools.py lines 503-546): a
failing metadata query raises `FileNotFoundError` when the path vanished
and `IbaFileDamagedError` otherwise; a frame count `≥ 1000000000` raises
`IbaFileNotCompleteError`; otherwise the `(clk, frames)` pair is
returned.  (The open/close bookkeeping of the reader handle has no
observable effect on this result and is elided.) -/
def check_file (env : FileCheckEnv) : Except IbaError (ℚ × ℤ) :=
  match env.queryMeta with
  | none => if ¬ env.isfile then .error .fileNotFound else .error .fileDamaged
  | some (clk, frames) =>
    if frames ≥ 1000000000 then .error .fileNotComplete
    else .ok (clk, frames)

end IbaTools

namespace IbaServer

open IbaTools

/-- What one tick of `VariableUpdater.run` costs in wall time: `work` is
the duration of the sink writes (lines 240-245), `overshoot` is how much
longer than requested `time.sleep` actually sleeps. -/
structure TickEffect where
  work : ℚ
  overshoot : ℚ
deriving DecidableEq, Repr

/-- One iteration of the loop in `VariableUpdater.run` (server.py lines
235-255), as a wall-clock transformer: `_nextCall = time.time()` at the
top of the tick, the sink writes advance the clock by `work`,
`_nextCall = _nextCall + period`, and if `sleepLength > 0` the thread
sleeps that long (plus `overshoot`); otherwise the overrun is only
reported. -/
def tickStep (p : ℚ) (e : TickEffect) (now : ℚ) : ℚ :=
  let nextCall := now
  let afterWork := now + e.work
  let nextCall := nextCall + p
  let sleepLength := nextCall - afterWork
  if 0 < sleepLength then afterWork + (sleepLength + e.overshoot) else afterWork

/-- Run the tick loop through a list of tick effects; returns the wall
clock when the last tick ends. -/
def runTicks (p : ℚ) (now : ℚ) : List TickEffect → ℚ
  | [] => now
  | e :: es => runTicks p (tickStep p e now) es

/-- The wall-clock times at which the successive ticks start
(the values `time.time()` stores into `_nextCall` at line 237). -/
def tickStarts (p : ℚ) (now : ℚ) : List TickEffect → List ℚ
  | [] => []
  | e :: es => now :: tickStarts p (tickStep p e now) es

/-- The absolute deadline of each tick: the value `_nextCall` holds after
line 250, namely the tick's start time plus the period. -/
def tickDeadlines (p now : ℚ) (es : List TickEffect) : List ℚ :=
  (tickStarts p now es).map (fun s => s + p)

/-- The cursor update at the end of a tick (server.py lines 244-247):
`idx += 1`, then wrap to `0` only when `idx > n` where `n` is
`self.data.shape[0]`. -/
def cursorTick (n idx : ℕ) : ℕ :=
  let idx2 := idx + 1
  if idx2 > n then 0 else idx2

/-- The cursor at the start of the `k`-th tick (`idx = 0` initially). -/
def cursorAt (n : ℕ) : ℕ → ℕ
  | 0 => 0
  | k + 1 => cursorTick n (cursorAt n k)

end IbaServer

namespace IbaTools

/-- A fold whose step fixes every element of the list is the identity. -/
theorem foldl_fixed {α β : Type} (f : β → α → β) (l : List α)
    (h : ∀ b, ∀ a ∈ l, f b a = b) : ∀ b, l.foldl f b = b := by
  induction l with
  | nil => intro b; rfl
  | cons a as ih =>
    intro b
    rw [List.foldl_cons, h b a (by simp)]
    exact ih (fun b' a' ha' => h b' a' (by simp [ha'])) b

/-- Filling the empty index range `[a, a)` changes nothing. -/
theorem fillRange_self (l : List String) (a : ℤ) (s : String) :
    fillRange l a a s = l := by
  unfold fillRange
  rw [List.mapIdx_eq_enum_map, List.map_congr_left, List.enum_map_snd]
  intro p _
  obtain ⟨i, v⟩ := p
  simp only [Function.uncurry_apply_pair]
  rw [if_neg (by omega)]

/-- The fill loop of `__read_text_channel__` never writes anything: for
every event at position `idx` the guard `idx < len(channel_data)` holds,
so the end index equals the start index and the fill range is empty.
(The intended guard was evidently `idx + 1 < len(channel_data)` with the
next event's timestamp; as written the dense output stays all-empty.) -/
theorem textFillLoop_eq_replicate (cd : List (ℚ × String)) (clk : ℚ) (frames : ℕ) :
    textFillLoop cd clk frames = List.replicate frames "" := by
  unfold textFillLoop
  apply foldl_fixed
  intro b p hp
  have hget : cd[p.1]? = some p.2 := List.mem_enum_iff_getElem?.1 hp
  have hlt : p.1 < cd.length := by
    rcases List.getElem?_eq_some.1 hget with ⟨hl, -⟩
    exact hl
  have hgetD : cd.getD p.1 (0, "") = p.2 := by
    rw [List.getD_eq_getElem?_getD, hget]; rfl
  simp only [if_pos hlt, hgetD]
  exact fillRange_self b _ _

/-- C1. The spec says a textual channel's sparse transition events
`[(0,"A"), (5,"B")]` with `frameCount = 8` (native clock = reference
clock, so `clk = 1`) expand to `["A","A","A","A","A","B","B","B"]`.
The code's fill loop compares `idx < len(channel_data)` where the next
event (`idx + 1`) was meant, so every fill range is empty and
`__read_text_channel__` returns `frames` empty strings. -/
theorem text_expansion_code_bug :
    readTextChannel (some [((0 : ℚ), "A"), ((5 : ℚ), "B")]) 0 1 8
      = .ok (List.replicate 8 "") ∧
    List.replicate 8 "" ≠ ["A", "A", "A", "A", "A", "B", "B", "B"] := by
  constructor
  · simp [readTextChannel, textFillLoop_eq_replicate]
  · decide

end IbaTools

namespace IbaServer

/-- C5. The spec says the playback cursor is always an in-bounds index
(`0 ≤ cursor < series length`) because it wraps to `0` whenever it would
exceed the series length.  The code wraps only when `idx > shape[0]`
(server.py line 246), so for a series of length `1` the cursor at the
second tick is `1`, the sink write `self.data[...][idx]` indexes one past
the end (`get?` returns `none`), and the claimed invariant fails. -/
theorem cursor_wrap_code_bug :
    cursorAt 1 1 = 1 ∧ ¬ cursorAt 1 1 < 1 ∧
    ([(3 : ℤ)] : List ℤ).get? (cursorAt 1 1) = none := by
  decide

end IbaServer

namespace IbaTools

/-- C6. In tolerant mode (`ignore=True`) a single unresolvable channel is
skipped (`continue`) and contributes no column, but an alternative group
none of whose members resolves is NOT skipped: control falls through to
`df[names[num]] = chan_data`.  If the group is the first requested
channel, `chan_data` was never assigned and the resulting `NameError`
surfaces as `DataStackingError`; if a previous channel succeeded, the
group receives a column duplicating that previous channel's data. -/
theorem tolerant_group_code_bug :
    readIbaFileChannels (fun _ => none) [.group ["m1", "m2"]] ["g"] true
      = .error .dataStacking ∧
    readIbaFileChannels (fun s => if s = "x" then some 7 else none)
        [.single "x", .group ["m1", "m2"]] ["x", "g"] true
      = .ok [("x", 7), ("g", 7)] ∧
    readIbaFileChannels (fun s => if s = "x" then some 7 else none)
        [.single "x", .single "missing"] ["x", "m"] true
      = .ok [("x", 7)] := by
  decide

/-- C9. When the metadata query succeeds with a frame count at or above
the sentinel `1_000_000_000`, `__check_file__` raises
`IbaFileNotCompleteError` (never `IbaFileDamagedError`); below the
sentinel it returns the `(clk, frames)` pair. -/
theorem check_file_sentinel (env : FileCheckEnv) (clk : ℚ) (frames : ℤ)
    (h : env.queryMeta = some (clk, frames)) :
    (1000000000 ≤ frames →
      check_file env = .error .fileNotComplete ∧
      check_file env ≠ .error .fileDamaged) ∧
    (frames < 1000000000 → check_file env = .ok (clk, frames)) := by
  have hc : check_file env =
      if frames ≥ 1000000000 then .error .fileNotComplete else .ok (clk, frames) := by
    unfold check_file
    rw [h]
  constructor
  · intro hf
    rw [hc, if_pos hf]
    exact ⟨rfl, by simp⟩
  · intro hf
    rw [hc, if_neg (by omega)]

/-- Witness for C9 at the claim's concrete sentinel value. -/
theorem check_file_sentinel_witness :
    check_file ⟨some (1, 1000000000), true⟩ = .error .fileNotComplete ∧
    check_file ⟨some (1, 5), true⟩ = .ok (1, 5) :=
  ⟨((check_file_sentinel ⟨some (1, 1000000000), true⟩ 1 1000000000 rfl).1 (by omega)).1,
   (check_file_sentinel ⟨some (1, 5), true⟩ 1 5 rfl).2 (by omega)⟩

/-- C10. `is_channel(chan, file)` is total and never propagates an
exception: its bare `except:` maps every failure of the open/query
pipeline to `False`, and it returns `True` exactly when a channel reader
is obtained. -/
theorem is_channel_total (chan : String) (env : IbaFileEnv) :
    (is_channel chan env = true ↔ ∃ r, acquireChannelReader env chan = .ok r) ∧
    ∀ e, acquireChannelReader env chan = .error e → is_channel chan env = false := by
  cases h : acquireChannelReader env chan with
  | ok r => simp [is_channel, h]
  | error e => simp [is_channel, h]

/-- Witness for C10: a file with no channels yields `False`. -/
theorem is_channel_total_witness :
    is_channel "a" ⟨false, true, true, fun _ => none, fun _ => none⟩ = false :=
  (is_channel_total "a" ⟨false, true, true, fun _ => none, fun _ => none⟩).2
    .runtimeError rfl

end IbaTools

namespace IbaServer

/-- When the tick's work fits inside the period, the tick ends one period
plus one sleep overshoot after it began: `run` re-bases `_nextCall` to
`time.time()` at the top of every tick, so the sleep targets
tick-start + period and any overshoot is carried into the next tick. -/
theorem tickStep_eq (p : ℚ) (e : TickEffect) (now : ℚ) (h : e.work < p) :
    tickStep p e now = now + p + e.overshoot := by
  simp only [tickStep]
  rw [if_pos (by linarith)]
  ring

/-- C2 (amended). The loop in `VariableUpdater.run` is NOT
fixed-increment: each tick re-bases the deadline to the tick's start time
plus the period (line 237 overwrites `_nextCall` with `time.time()`), so
with per-tick work below the period the elapsed wall time over the ticks
is `N*p` plus the SUM of all sleep overshoots — per-tick sleep slack
accumulates instead of being absorbed. -/
theorem scheduler_rebased_drift (p now0 : ℚ) (es : List TickEffect)
    (h : ∀ e ∈ es, e.work < p) :
    runTicks p now0 es
      = now0 + es.length * p + (es.map TickEffect.overshoot).sum := by
  induction es generalizing now0 with
  | nil => simp [runTicks]
  | cons e es ih =>
    simp only [runTicks]
    rw [tickStep_eq p e now0 (h e (by simp))]
    rw [ih (now0 + p + e.overshoot) (fun e' he' => h e' (by simp [he']))]
    simp only [List.length_cons, List.map_cons, List.sum_cons]
    push_cast
    ring

/-- Witness for C2's amended statement: one tick with work 1, period 2
and overshoot 5 ends at time 7. -/
theorem scheduler_rebased_drift_witness :
    runTicks 2 0 [⟨1, 5⟩] = 7 := by
  have h := scheduler_rebased_drift 2 0 [⟨1, 5⟩]
    (by intro e he; rw [List.mem_singleton] at he; rw [he]; norm_num)
  rw [h]
  norm_num

/-- Counterexample for C2 as stated: three ticks with period 1, zero work
and sleep overshoot 1 each.  The successive deadlines are `[1, 3, 5]` —
each advanced by 2, not by exactly the period 1 — and the elapsed wall
time is 6, which exceeds `N*p = 3` by 3, more than one tick's slack
(at most the period, 1).  Under fixed-increment scheduling the deadlines
would have been `[1, 2, 3]`. -/
theorem scheduler_fixed_increment_counterexample :
    runTicks 1 0 [⟨0, 1⟩, ⟨0, 1⟩, ⟨0, 1⟩] = 6 ∧
    tickDeadlines 1 0 [⟨0, 1⟩, ⟨0, 1⟩, ⟨0, 1⟩] = [1, 3, 5] ∧
    (6 : ℚ) > 3 * 1 + 1 := by
  refine ⟨?_, ?_, by norm_num⟩
  · norm_num [runTicks, tickStep]
  · norm_num [tickDeadlines, tickStarts, tickStep]

end IbaServer

namespace IbaTools

/-- `int()` agrees with the floor on non-negative rationals. -/
theorem pyInt_eq_floor (q : ℚ) (h : 0 ≤ q) : pyInt q = ⌊q⌋ :=
  if_neg (not_lt.2 h)

/-- Length of `everyNthAux l k c`: the elements taken are those reached
after the initial countdown `c` and then every `k`-th one. -/
theorem everyNthAux_length {α : Type} (k : ℕ) (hk : 1 ≤ k) :
    ∀ (l : List α) (c : ℕ), (everyNthAux l k c).length = (l.length - c + k - 1) / k := by
  intro l
  induction l with
  | nil =>
    intro c
    simp only [everyNthAux, List.length_nil]
    rw [Nat.div_eq_of_lt (by omega)]
  | cons a as ih =>
    intro c
    cases c with
    | zero =>
      simp only [everyNthAux, List.length_cons, ih (k - 1)]
      have hstep : as.length + 1 - 0 + k - 1 = as.length + k := by omega
      rw [hstep, Nat.add_div_right _ (by omega)]
      by_cases hm : k - 1 ≤ as.length
      · have : as.length - (k - 1) + k - 1 = as.length := by omega
        rw [this]
      · have h0 : as.length - (k - 1) = 0 := by omega
        rw [h0, Nat.div_eq_of_lt (by omega), Nat.div_eq_of_lt (by omega)]
    | succ c' =>
      simp only [everyNthAux, List.length_cons, ih c']
      congr 1
      omega

/-- `l[::k]` keeps `ceil(len(l) / k)` elements. -/
theorem length_everyNth {α : Type} (l : List α) (k : ℕ) (hk : 1 ≤ k) :
    (everyNth l k).length = (l.length + k - 1) / k := by
  have h := everyNthAux_length k hk l 0
  simpa [everyNth] using h

/-- For a channel whose native clock equals the reference clock and a
requested timebase `t > clk > 0`, `__read_numeric_channel__` skips the
replication branch and decimates with slice step `int(t/clk) = ⌊t/clk⌋`. -/
theorem readNumericChannel_aligned (data : List ℚ) (clk tbase : ℚ)
    (hclk : 0 < clk) (ht : clk < tbase) :
    readNumericChannel (some ⟨clk, data⟩) tbase clk
      = .ok (everyNth data (⌊tbase / clk⌋).toNat) := by
  have h1 : (1 : ℚ) < tbase / clk := (one_lt_div hclk).2 ht
  have hfl : 1 ≤ ⌊tbase / clk⌋ := Int.le_floor.2 (by exact_mod_cast le_of_lt h1)
  have ht0 : tbase ≠ 0 := ne_of_gt (lt_trans hclk ht)
  have hpy : pyInt (tbase / clk) = ⌊tbase / clk⌋ :=
    pyInt_eq_floor _ (le_of_lt (lt_trans one_pos h1))
  simp only [readNumericChannel]
  rw [if_neg (show ¬ clk ≠ clk by simp), if_pos ht0, hpy]
  unfold pySliceStep
  rw [if_neg (by omega), if_pos (by omega)]

/-- C3 (amended). For a numeric channel already aligned to the reference
clock and a requested timebase `t > clk > 0`, `__read_numeric_channel__`
decimates with Python slice step `int(t / clk)` — the FLOOR (truncation)
of the ratio, not its rounding — so the result keeps every
`⌊t/clk⌋`-th sample and has length `ceil(len / ⌊t/clk⌋)`,
written `(len + s - 1) / s` for `s = ⌊t/clk⌋` in natural division. -/
theorem numeric_downsample_floor (data : List ℚ) (clk tbase : ℚ)
    (hclk : 0 < clk) (ht : clk < tbase) :
    readNumericChannel (some ⟨clk, data⟩) tbase clk
      = .ok (everyNth data (⌊tbase / clk⌋).toNat) ∧
    (everyNth data (⌊tbase / clk⌋).toNat).length
      = (data.length + (⌊tbase / clk⌋).toNat - 1) / (⌊tbase / clk⌋).toNat := by
  have h1 : (1 : ℚ) < tbase / clk := (one_lt_div hclk).2 ht
  have hfl : 1 ≤ ⌊tbase / clk⌋ := Int.le_floor.2 (by exact_mod_cast le_of_lt h1)
  have hnat : 1 ≤ (⌊tbase / clk⌋).toNat := by omega
  exact ⟨readNumericChannel_aligned data clk tbase hclk ht, length_everyNth data _ hnat⟩

/-- Witness for C3's amended statement at `clk = 10`, `t = 29`. -/
theorem numeric_downsample_floor_witness :
    readNumericChannel (some ⟨10, [0, 1, 2, 3, 4, 5]⟩) 29 10
      = .ok (everyNth [0, 1, 2, 3, 4, 5] (⌊(29 : ℚ) / 10⌋).toNat) :=
  (numeric_downsample_floor [0, 1, 2, 3, 4, 5] 10 29 (by norm_num) (by norm_num)).1

/-- Counterexample for C3 as stated: with `clk = 10`, `t = 29` the ratio
is `2.9`; the code truncates it to step `2` and keeps 3 of 6 samples,
while the claim's `round(t/clk) = 3` predicts `ceil(6/3) = 2` samples. -/
theorem numeric_downsample_round_counterexample :
    (readNumericChannel (some ⟨10, [0, 1, 2, 3, 4, 5]⟩) 29 10).map List.length
      = .ok 3 ∧
    round ((29 : ℚ) / 10) = 3 ∧
    (6 + (round ((29 : ℚ) / 10)).toNat - 1) / (round ((29 : ℚ) / 10)).toNat = 2 ∧
    (3 : ℕ) ≠ 2 := by
  have hround : round ((29 : ℚ) / 10) = 3 := by
    rw [round_eq, Int.floor_eq_iff]
    constructor <;> norm_num
  have hfloor : ⌊(29 : ℚ) / 10⌋ = 2 := by
    rw [Int.floor_eq_iff]
    constructor <;> norm_num
  refine ⟨?_, hround, by rw [hround]; rfl, by norm_num⟩
  have hev := readNumericChannel_aligned [0, 1, 2, 3, 4, 5] 10 29
    (by norm_num) (by norm_num)
  rw [hfloor] at hev
  rw [hev]
  rfl

/-- The first per-file failure in the loop of `readIbaFiles` propagates:
there is no `try`/`except` around `readIbaFile`. -/
theorem readIbaFilesCollect_error {α : Type} (f : α → Except IbaError DataFrame)
    (pre : List α) (x : α) (post : List α) (e : IbaError)
    (hpre : ∀ y ∈ pre, ∃ d, f y = .ok d) (hx : f x = .error e) :
    readIbaFilesCollect f (pre ++ x :: post) = .error e := by
  induction pre with
  | nil => simp [readIbaFilesCollect, hx]
  | cons y ys ih =>
    obtain ⟨d, hd⟩ := hpre y (by simp)
    have ih' := ih (fun z hz => hpre z (by simp [hz]))
    simp [readIbaFilesCollect, hd, ih']

/-- C4 (amended). A failure confined to a single file is NOT caught by
the multi-file stacking loop of `readIbaFiles`: the first per-file error
aborts the whole batch.  Only the chronological ordering step
(`sortIbaFiles`) catches per-file failures — a file whose start time
cannot be read is logged and excluded, and exactly the files with a
readable start time survive into the sorted list. -/
theorem stacking_failure_propagation {α : Type} (f : α → Except IbaError DataFrame)
    (g : α → Option ℤ) (pre post files : List α) (x : α) (e : IbaError)
    (hpre : ∀ y ∈ pre, ∃ d, f y = .ok d) (hx : f x = .error e) :
    readIbaFilesModel f (pre ++ x :: post) = .error e ∧
    ∀ z, z ∈ sortIbaFilesModel g files ↔ z ∈ files ∧ (g z).isSome = true := by
  constructor
  · unfold readIbaFilesModel
    rw [readIbaFilesCollect_error f pre x post e hpre hx]
  · intro z
    simp only [sortIbaFilesModel, List.mem_map, List.mem_mergeSort,
      List.mem_filterMap, Option.map_eq_some', Option.isSome_iff_exists]
    aesop

/-- Witness for C4's amended statement: a two-file batch whose second
file is damaged fails with that file's error. -/
theorem stacking_failure_propagation_witness :
    readIbaFilesModel demoPerFileRead ([true] ++ false :: []) = .error .fileDamaged ∧
    (false ∈ sortIbaFilesModel (fun b : Bool => if b then some 0 else none) [true, false]
      ↔ false ∈ [true, false] ∧
        ((fun b : Bool => if b then some 0 else none) false).isSome = true) :=
  ⟨(stacking_failure_propagation demoPerFileRead
      (fun b : Bool => if b then some 0 else none) [true] [] [true, false] false
      .fileDamaged (by intro y hy; rw [List.mem_singleton] at hy; rw [hy]; exact ⟨_, rfl⟩)
      rfl).1,
   (stacking_failure_propagation demoPerFileRead
      (fun b : Bool => if b then some 0 else none) [true] [] [true, false] false
      .fileDamaged (by intro y hy; rw [List.mem_singleton] at hy; rw [hy]; exact ⟨_, rfl⟩)
      rfl).2 false⟩

/-- Counterexample for C4 as stated: the batch `[good, damaged, good]`
does fail because of the one bad file, while the all-good batch
succeeds. -/
theorem stacking_single_failure_counterexample :
    readIbaFilesModel demoPerFileRead [true, false, true] = .error .fileDamaged ∧
    readIbaFilesModel demoPerFileRead [true, true]
      = .ok ⟨2, [("x", [some 0, some 0])]⟩ := by
  decide

/-- The concatenation step exposes exactly the union's column names. -/
theorem colNames_concatAligned (allCols : List String) (dfs : List DataFrame) :
    colNames (concatAligned allCols dfs) = allCols := by
  simp [colNames, concatAligned, List.map_map, Function.comp_def]

/-- A name is a column of the stacked frame exactly when some input frame
has it. -/
theorem mem_colNames_stack (dfs : List DataFrame) (c : String) :
    c ∈ colNames (stackDataFrames dfs) ↔ ∃ df ∈ dfs, c ∈ colNames df := by
  simp [stackDataFrames, colNames_concatAligned, List.mem_dedup, List.mem_flatMap]

/-- C7. Stacking per-file frames yields the union of the column sets
(last conjunct, fully general), and concretely for file A with columns
`{x, y}` and file B with columns `{x, z}`: the merged `x` column is A's
rows followed by B's, the `y` column holds nulls on every B row, and the
`z` column holds nulls on every A row. -/
theorem stacking_union_nullfill (nA nB : ℕ) (ax ay bx bz : List Cell)
    (hax : ax.length = nA) (hay : ay.length = nA)
    (hbx : bx.length = nB) (hbz : bz.length = nB) :
    getCol (stackDataFrames [⟨nA, [("x", ax), ("y", ay)]⟩, ⟨nB, [("x", bx), ("z", bz)]⟩]) "x"
      = some (ax ++ bx) ∧
    getCol (stackDataFrames [⟨nA, [("x", ax), ("y", ay)]⟩, ⟨nB, [("x", bx), ("z", bz)]⟩]) "y"
      = some (ay ++ List.replicate nB none) ∧
    getCol (stackDataFrames [⟨nA, [("x", ax), ("y", ay)]⟩, ⟨nB, [("x", bx), ("z", bz)]⟩]) "z"
      = some (List.replicate nA none ++ bz) ∧
    (∀ c, c ∈ colNames (stackDataFrames
        [⟨nA, [("x", ax), ("y", ay)]⟩, ⟨nB, [("x", bx), ("z", bz)]⟩])
      ↔ c ∈ colNames ⟨nA, [("x", ax), ("y", ay)]⟩
        ∨ c ∈ colNames ⟨nB, [("x", bx), ("z", bz)]⟩) ∧
    (∀ dfs c, c ∈ colNames (stackDataFrames dfs) ↔ ∃ df ∈ dfs, c ∈ colNames df) := by
  refine ⟨?_, ?_, ?_, ?_, fun dfs c => mem_colNames_stack dfs c⟩
  · simp [stackDataFrames, concatAligned, fillMissing, getCol, colNames,
      List.lookup, List.dedup, List.filter, beq_iff_eq]
  · simp [stackDataFrames, concatAligned, fillMissing, getCol, colNames,
      List.lookup, List.dedup, List.filter, beq_iff_eq]
  · simp [stackDataFrames, concatAligned, fillMissing, getCol, colNames,
      List.lookup, List.dedup, List.filter, beq_iff_eq]
  · intro c
    rw [mem_colNames_stack]
    simp

/-- Witness for C7 at one-row frames with concrete cells. -/
theorem stacking_union_nullfill_witness :
    getCol (stackDataFrames [⟨1, [("x", [some 1]), ("y", [some 2])]⟩,
        ⟨1, [("x", [some 3]), ("z", [some 4])]⟩]) "y"
      = some [some 2, none] ∧
    getCol (stackDataFrames [⟨1, [("x", [some 1]), ("y", [some 2])]⟩,
        ⟨1, [("x", [some 3]), ("z", [some 4])]⟩]) "z"
      = some [none, some 4] :=
  ⟨(stacking_union_nullfill 1 1 [some 1] [some 2] [some 3] [some 4]
      rfl rfl rfl rfl).2.1,
   (stacking_union_nullfill 1 1 [some 1] [some 2] [some 3] [some 4]
      rfl rfl rfl rfl).2.2.1⟩

/-- C8 (amended). A channel declaration given as a single delimited
string is split on the delimiter and each token is stripped of
whitespace, but empty tokens are KEPT (no token is dropped, and an empty
identity appears exactly when some token strips to empty); empty entries
are dropped only when the declaration is given as a list. -/
theorem string_declaration_amended (fc : List String) (s : String) (d : Char)
    (h1 : ¬ s = "") (h2 : ¬ s = "*") :
    (declarationCheckChannels fc (.strArg s) d).length = (pySplit s d).length ∧
    (ChanSpec.single "" ∈ declarationCheckChannels fc (.strArg s) d ↔
      "" ∈ (pySplit s d).map pyStrip) ∧
    ∀ l, ChanSpec.single "" ∉ declarationCheckChannels fc (.listArg l) d := by
  refine ⟨?_, ?_, ?_⟩
  · simp [declarationCheckChannels, h1, h2]
  · simp [declarationCheckChannels, h1, h2, List.mem_map]
  · intro l
    simp [declarationCheckChannels, List.mem_filter]

/-- Witness for C8's amended statement at the claim's input `"a,,b"`. -/
theorem string_declaration_amended_witness :
    (declarationCheckChannels [] (.strArg "a,,b") ',').length
      = (pySplit "a,,b" ',').length ∧
    (ChanSpec.single "" ∈ declarationCheckChannels [] (.strArg "a,,b") ',' ↔
      "" ∈ (pySplit "a,,b" ',').map pyStrip) :=
  ⟨(string_declaration_amended [] "a,,b" ',' (by decide) (by decide)).1,
   (string_declaration_amended [] "a,,b" ',' (by decide) (by decide)).2.1⟩

/-- Counterexample for C8 as stated: the empty token of `"a,,b"` is not
dropped — the resolved identity list is `["a", "", "b"]`, not
`["a", "b"]`, and it contains the empty string. -/
theorem string_declaration_counterexample :
    declarationCheckChannels [] (.strArg "a,,b") ','
      = [ChanSpec.single "a", ChanSpec.single "", ChanSpec.single "b"] ∧
    declarationCheckChannels [] (.strArg "a,,b") ','
      ≠ [ChanSpec.single "a", ChanSpec.single "b"] ∧
    ChanSpec.single "" ∈ declarationCheckChannels [] (.strArg "a,,b") ',' := by
  decide

end IbaTools

